import Mathlib

/-!
Shallow embedding of the voter-weight engine of the
`civicteam/governance-program-library` repository (gateway and quadratic
plugins), together with theorems settling the specification claims about
the cast-vote accumulation rule, the general update path, the quadratic
transform, the record defaults and the external action-enum mapping.

Machine integers are modelled as `Nat` with explicit u64 bounds; Solana
public keys are modelled as `Nat` (only equality and a zero default
matter to the embedded code); an instruction handler is a pure function
from its resolved inputs and the pre-state of the mutable account to
`Except TxFailure` of the post-state, where an error or panic outcome
means the enclosing transaction aborts and the account keeps its
pre-call value (Solana transactions apply all-or-nothing).
-/

/-- Solana `Pubkey`: a 32-byte identifier; only equality and the all-zero
default value are used by the embedded code, so it is modelled as `Nat`. -/
abbrev Pubkey := Nat

/-- Largest value representable in the `u64` weight type. -/
def U64_MAX : Nat := 2 ^ 64 - 1

/-- Rust `u64::checked_add`: `none` exactly when the mathematical sum exceeds
`U64_MAX` (from `voter_weight_record.voter_weight.checked_add(voter_weight)`
in `cast_vote.rs`). -/
def u64_checked_add (a b : Nat) : Option Nat :=
  if a + b ≤ U64_MAX then some (a + b) else none

/-- Constant `DEFAULT_VOTE_WEIGHT` from `gateway/src/state/voter_weight_record.rs`:
the default vote weight matching the default decimal places of a
governance token. -/
def DEFAULT_VOTE_WEIGHT : Nat := 1000000

/-- Enum `VoterWeightAction` from `gateway/src/state/voter_weight_record.rs`
(the gateway crate's own copy of the spl-governance-addin-api enum). -/
inductive VoterWeightAction where
  | castVote
  | commentProposal
  | createGovernance
  | createProposal
  | signOffProposal
deriving DecidableEq, Repr

/-- The integer discriminant of a `VoterWeightAction` variant (its ordinal
position in the Rust enum, as produced by an `as u32` cast). -/
def VoterWeightAction.discriminant : VoterWeightAction → Nat
  | .castVote => 0
  | .commentProposal => 1
  | .createGovernance => 2
  | .createProposal => 3
  | .signOffProposal => 4

/-- Map `num_traits::FromPrimitive::from_u32` for `VoterWeightAction`, as
derived by `#[derive(FromPrimitive)]`: maps each in-range discriminant to
its variant and every out-of-range discriminant to `none`. -/
def VoterWeightAction.fromPrimitive : Nat → Option VoterWeightAction
  | 0 => some .castVote
  | 1 => some .commentProposal
  | 2 => some .createGovernance
  | 3 => some .createProposal
  | 4 => some .signOffProposal
  | _ + 5 => none

/-- The externally defined
`spl_governance_addin_api::voter_weight::VoterWeightAction` enum: the same
five variants in the same order as the gateway crate's own copy. -/
inductive SplVoterWeightAction where
  | castVote
  | commentProposal
  | createGovernance
  | createProposal
  | signOffProposal
deriving DecidableEq, Repr

/-- The `x as u32` cast applied to the external enum in
`get_weight_action`: the variant's ordinal position. -/
def SplVoterWeightAction.toU32 : SplVoterWeightAction → Nat
  | .castVote => 0
  | .commentProposal => 1
  | .createGovernance => 2
  | .createProposal => 3
  | .signOffProposal => 4

/-- The conversion inside
`GenericVoterWeight::get_weight_action` for the external record
(`voter_weight_record.rs`): `FromPrimitive::from_u32(x as u32)`, still an
`Option` here; the source then calls `.unwrap()`, which panics (a fatal
abort) exactly when this is `none`. -/
def mapExternalAction (x : SplVoterWeightAction) : Option VoterWeightAction :=
  VoterWeightAction.fromPrimitive x.toU32

/-- Account `VoterWeightRecord` from
`gateway/src/state/voter_weight_record.rs`. -/
structure VoterWeightRecord where
  realm : Pubkey
  governing_token_mint : Pubkey
  governing_token_owner : Pubkey
  voter_weight : Nat
  voter_weight_expiry : Option Nat
  weight_action : Option VoterWeightAction
  weight_action_target : Option Pubkey
  reserved : List Nat
deriving DecidableEq, Repr

/-- Source `impl Default for VoterWeightRecord` from
`gateway/src/state/voter_weight_record.rs`: identity fields and weight at
their zero values, but `voter_weight_expiry = Some(0)`,
`weight_action = Some(CastVote)` and
`weight_action_target = Some(Pubkey::default())`. -/
def VoterWeightRecord.default : VoterWeightRecord where
  realm := 0
  governing_token_mint := 0
  governing_token_owner := 0
  voter_weight := 0
  voter_weight_expiry := some 0
  weight_action := some .castVote
  weight_action_target := some 0
  reserved := List.replicate 8 0

/-- The gateway plugin's error enum (`GatewayError`), as referenced from
`cast_vote.rs` and the gateway tests. -/
inductive GatewayError where
  | invalidVoterWeightRecordRealm
  | invalidVoterWeightRecordMint
  | invalidTokenOwnerForVoterWeightRecord
  | invalidGatewayToken
  | castVoteIsNotAllowed
  | invalidRealmAuthority
deriving DecidableEq, Repr

/-- How an instruction's enclosing transaction can fail: a returned
program error, or a Rust panic (e.g. `unwrap()` on `None` after a
`checked_add` overflow). Either way the whole transaction aborts and no
account mutation is committed. -/
inductive TxFailure where
  | err (e : GatewayError)
  | panicked
deriving DecidableEq, Repr

/-- Handler `cast_vote` instruction from
`gateway/src/instructions/cast_vote.rs`, as a pure function.

Inputs: `gatewayTokenValid` is the outcome of the external
`Gateway::verify_gateway_token_account_info` oracle (verification of the
presented gateway token against the record's governing token owner and
the registrar's gatekeeper network); `slot` is `Clock::get()?.slot` at
execution time; `record` is the pre-state of the voter weight record;
`proposal` is the instruction argument.

An `Except.error` result models the transaction aborting with the record
left at its pre-call value. The source's early return on verification
failure is `Bool.cond`; `checked_add(...).unwrap()` is `Option.elim` with
the `none` (panic) case aborting the transaction. -/
def cast_vote (gatewayTokenValid : Bool) (slot : Nat)
    (record : VoterWeightRecord) (proposal : Pubkey) :
    Except TxFailure VoterWeightRecord :=
  cond gatewayTokenValid
    (if record.weight_action_target = some proposal ∧
        record.weight_action = some .castVote then
      (u64_checked_add record.voter_weight DEFAULT_VOTE_WEIGHT).elim
        (Except.error TxFailure.panicked)
        (fun w =>
          Except.ok { record with
                      voter_weight := w
                      voter_weight_expiry := some slot
                      weight_action := some .castVote
                      weight_action_target := some proposal })
    else
      Except.ok { record with
                  voter_weight := DEFAULT_VOTE_WEIGHT
                  voter_weight_expiry := some slot
                  weight_action := some .castVote
                  weight_action_target := some proposal })
    (Except.error (TxFailure.err GatewayError.invalidGatewayToken))

/-- Modelled from the spec: the gateway plugin's
`update_voter_weight_record` instruction body is not under `src/` (only
its `lib.rs` entry point and its tests are). Following §4.5 of the spec:
the credential gate is consulted first (cast-vote/deposit path), the
resolved action is checked — if it resolves to cast-vote the call is
rejected with the dedicated `CastVoteIsNotAllowed` error — and otherwise
the final weight is stored and the record stamped with the current slot
and the resolved action/target. -/
def update_voter_weight_record (gatewayTokenValid : Bool) (slot : Nat)
    (record : VoterWeightRecord) (action : VoterWeightAction)
    (target : Option Pubkey) (final_weight : Nat) :
    Except TxFailure VoterWeightRecord :=
  cond gatewayTokenValid
    (if action = .castVote then
      Except.error (TxFailure.err GatewayError.castVoteIsNotAllowed)
    else
      Except.ok { record with
                  voter_weight := final_weight
                  voter_weight_expiry := some slot
                  weight_action := some action
                  weight_action_target := target })
    (Except.error (TxFailure.err GatewayError.invalidGatewayToken))

/-- Modelled from the spec: the quadratic plugin's state module holding
`QuadraticCoefficients` is not under `src/` (only `util/mod.rs` uses it).
Per §3/§4.4, the coefficients are a numeric triple `(a, b, c)`;
rationals stand for the numeric coefficient type. -/
structure QuadraticCoefficients where
  a : ℚ
  b : ℚ
  c : ℚ
deriving DecidableEq, Repr

/-- The exact value of `full_term` in
`quadratic/src/util/mod.rs::convert_vote`:
`a * sqrt(x) + b * x + c` over the reals (the source computes it with the
`rug` arbitrary-precision floats, which the spec equates with exact wide
arithmetic). -/
noncomputable def quadratic_full_term (x : Nat) (k : QuadraticCoefficients) : ℝ :=
  (k.a : ℝ) * Real.sqrt (x : ℝ) + (k.b : ℝ) * (x : ℝ) + (k.c : ℝ)

open Classical in
/-- The `to_u64()` conversion applied to `full_term` in `convert_vote`:
`some` of the floor when the value is non-negative and representable in
u64, `none` (so that the following `.unwrap()` panics fatally) otherwise. -/
noncomputable def float_to_u64 (r : ℝ) : Option Nat :=
  if 0 ≤ r ∧ r < 2 ^ 64 then some ⌊r⌋₊ else none

/-- The value computed by the final expression
`full_term.to_u64().unwrap()` of `convert_vote` (before the `.unwrap()`):
the u64 the function is meant to return. Note the source's final line
ends in a semicolon, so this value is computed and then discarded. -/
noncomputable def convert_vote_value (input_voter_weight : Nat)
    (coefficients : QuadraticCoefficients) : Option Nat :=
  float_to_u64 (quadratic_full_term input_voter_weight coefficients)

/-- Coefficient set that tunes the quadratic transform to a pure square
root: `a = 1, b = 0, c = 0`. -/
def pureSqrtCoefficients : QuadraticCoefficients where
  a := 1
  b := 0
  c := 0

/-- A sample record scoped to (cast-vote, proposal 7) with weight 5,
used to instantiate witnesses. -/
def sampleScopedRecord : VoterWeightRecord where
  realm := 1
  governing_token_mint := 2
  governing_token_owner := 3
  voter_weight := 5
  voter_weight_expiry := some 4
  weight_action := some .castVote
  weight_action_target := some 7
  reserved := List.replicate 8 0

/-- A sample unscoped record (weight 0, no action, no target), used to
instantiate witnesses. -/
def sampleUnscopedRecord : VoterWeightRecord where
  realm := 1
  governing_token_mint := 2
  governing_token_owner := 3
  voter_weight := 0
  voter_weight_expiry := none
  weight_action := none
  weight_action_target := none
  reserved := List.replicate 8 0

/-- A sample record scoped to (cast-vote, proposal 7) whose weight is at
the u64 maximum, used to instantiate the overflow witness. -/
def sampleMaxedRecord : VoterWeightRecord where
  realm := 1
  governing_token_mint := 2
  governing_token_owner := 3
  voter_weight := U64_MAX
  voter_weight_expiry := some 4
  weight_action := some .castVote
  weight_action_target := some 7
  reserved := List.replicate 8 0


/-- The record produced by a first successful `cast_vote` (slot 11) on
the sample unscoped record, used to instantiate witnesses. -/
def sampleStampedRecord : VoterWeightRecord :=
  { sampleUnscopedRecord with
    voter_weight := DEFAULT_VOTE_WEIGHT
    voter_weight_expiry := some 11
    weight_action := some VoterWeightAction.castVote
    weight_action_target := some 7 }

/-- State after the first of three successive `cast_vote` calls (slots
1, 2, 3) against proposal 7 starting from the sample unscoped record. -/
def tripleStep1 : VoterWeightRecord :=
  { sampleUnscopedRecord with
    voter_weight := DEFAULT_VOTE_WEIGHT
    voter_weight_expiry := some 1
    weight_action := some VoterWeightAction.castVote
    weight_action_target := some 7 }

/-- State after the second of the three successive `cast_vote` calls. -/
def tripleStep2 : VoterWeightRecord :=
  { tripleStep1 with
    voter_weight := tripleStep1.voter_weight + DEFAULT_VOTE_WEIGHT
    voter_weight_expiry := some 2 }

/-- State after the third of the three successive `cast_vote` calls. -/
def tripleStep3 : VoterWeightRecord :=
  { tripleStep2 with
    voter_weight := tripleStep2.voter_weight + DEFAULT_VOTE_WEIGHT
    voter_weight_expiry := some 3 }

/-- Spec lemma for `u64_checked_add`: in-range sums succeed. -/
theorem u64_checked_add_eq_some (a b : Nat) (h : a + b ≤ U64_MAX) :
    u64_checked_add a b = some (a + b) := by
  unfold u64_checked_add
  rw [if_pos h]

/-- Spec lemma for `u64_checked_add`: out-of-range sums return `none`. -/
theorem u64_checked_add_eq_none (a b : Nat) (h : U64_MAX < a + b) :
    u64_checked_add a b = none := by
  unfold u64_checked_add
  rw [if_neg (Nat.not_le_of_lt h)]

/-- Lemma: `cast_vote` on the accumulate branch (record scoped to the same
proposal and to cast-vote, sum in range). -/
theorem cast_vote_true_accum (slot : Nat) (r : VoterWeightRecord) (P : Pubkey)
    (ht : r.weight_action_target = some P)
    (ha : r.weight_action = some VoterWeightAction.castVote)
    (hb : r.voter_weight + DEFAULT_VOTE_WEIGHT ≤ U64_MAX) :
    cast_vote true slot r P =
      Except.ok { r with
        voter_weight := r.voter_weight + DEFAULT_VOTE_WEIGHT
        voter_weight_expiry := some slot
        weight_action := some VoterWeightAction.castVote
        weight_action_target := some P } := by
  unfold cast_vote
  rw [if_pos (And.intro ht ha), u64_checked_add_eq_some _ _ hb]
  rfl

/-- Lemma: `cast_vote` on the reset branch (record not scoped to both the
cast-vote action and the same proposal). -/
theorem cast_vote_true_reset (slot : Nat) (r : VoterWeightRecord) (P : Pubkey)
    (h : ¬(r.weight_action_target = some P ∧
        r.weight_action = some VoterWeightAction.castVote)) :
    cast_vote true slot r P =
      Except.ok { r with
        voter_weight := DEFAULT_VOTE_WEIGHT
        voter_weight_expiry := some slot
        weight_action := some VoterWeightAction.castVote
        weight_action_target := some P } := by
  unfold cast_vote
  rw [if_neg h]
  rfl

/-- Any successful `cast_vote` call stamps slot/action/target, and its
weight is either the old weight plus `DEFAULT_VOTE_WEIGHT` or exactly
`DEFAULT_VOTE_WEIGHT`. -/
theorem cast_vote_ok_inv (g : Bool) (slot : Nat) (r : VoterWeightRecord)
    (P : Pubkey) (r' : VoterWeightRecord)
    (h : cast_vote g slot r P = Except.ok r') :
    (r'.voter_weight_expiry = some slot ∧
      r'.weight_action = some VoterWeightAction.castVote ∧
      r'.weight_action_target = some P) ∧
    (r'.voter_weight = r.voter_weight + DEFAULT_VOTE_WEIGHT ∨
      r'.voter_weight = DEFAULT_VOTE_WEIGHT) := by
  cases g with
  | false =>
      simp only [cast_vote, Bool.cond_false] at h
      exact Except.noConfusion h
  | true =>
      unfold cast_vote at h
      simp only [Bool.cond_true] at h
      by_cases hc : (r.weight_action_target = some P ∧
          r.weight_action = some VoterWeightAction.castVote)
      · rw [if_pos hc] at h
        cases hadd : u64_checked_add r.voter_weight DEFAULT_VOTE_WEIGHT with
        | none =>
            rw [hadd] at h
            simp only [Option.elim_none] at h
            exact Except.noConfusion h
        | some w =>
            rw [hadd] at h
            simp only [Option.elim_some] at h
            obtain rfl := Except.ok.inj h
            refine ⟨⟨rfl, rfl, rfl⟩, Or.inl ?_⟩
            have hw : u64_checked_add r.voter_weight DEFAULT_VOTE_WEIGHT =
                some (r.voter_weight + DEFAULT_VOTE_WEIGHT) ∨
                u64_checked_add r.voter_weight DEFAULT_VOTE_WEIGHT = none := by
              unfold u64_checked_add
              by_cases hle : r.voter_weight + DEFAULT_VOTE_WEIGHT ≤ U64_MAX
              · exact Or.inl (by rw [if_pos hle])
              · exact Or.inr (by rw [if_neg hle])
            rcases hw with hw | hw
            · rw [hadd] at hw
              exact (Option.some.inj hw).symm ▸ rfl
            · rw [hadd] at hw
              exact Option.noConfusion hw
      · rw [if_neg hc] at h
        obtain rfl := Except.ok.inj h
        exact ⟨⟨rfl, rfl, rfl⟩, Or.inr rfl⟩

/-- Claim C1: for a record scoped to (cast-vote, P), a successful
`cast_vote` for the same P sets weight to old + per-call weight; from an
unscoped record, three successful calls against the same target P end
with weight `3 * DEFAULT_VOTE_WEIGHT`, action cast-vote, target P. -/
theorem cast_vote_accumulates_same_target :
    (∀ (slot : Nat) (r : VoterWeightRecord) (P : Pubkey),
      r.weight_action_target = some P →
      r.weight_action = some VoterWeightAction.castVote →
      r.voter_weight + DEFAULT_VOTE_WEIGHT ≤ U64_MAX →
      cast_vote true slot r P =
        Except.ok { r with
          voter_weight := r.voter_weight + DEFAULT_VOTE_WEIGHT
          voter_weight_expiry := some slot
          weight_action := some VoterWeightAction.castVote
          weight_action_target := some P }) ∧
    (∀ (s1 s2 s3 : Nat) (r : VoterWeightRecord) (P : Pubkey),
      r.voter_weight = 0 → r.weight_action = none →
      r.weight_action_target = none →
      ∀ r1 r2 r3 : VoterWeightRecord,
        cast_vote true s1 r P = Except.ok r1 →
        cast_vote true s2 r1 P = Except.ok r2 →
        cast_vote true s3 r2 P = Except.ok r3 →
        r3.voter_weight = 3 * DEFAULT_VOTE_WEIGHT ∧
          r3.weight_action = some VoterWeightAction.castVote ∧
          r3.weight_action_target = some P) := by
  constructor
  · exact cast_vote_true_accum
  · intro s1 s2 s3 r P _hw ha _ht r1 r2 r3 h1 h2 h3
    rw [cast_vote_true_reset s1 r P
      (fun hc => by rw [ha] at hc; exact Option.noConfusion hc.2)] at h1
    obtain rfl := Except.ok.inj h1
    rw [cast_vote_true_accum s2 _ P rfl rfl
      (by norm_num [DEFAULT_VOTE_WEIGHT, U64_MAX])] at h2
    obtain rfl := Except.ok.inj h2
    rw [cast_vote_true_accum s3 _ P rfl rfl
      (by norm_num [DEFAULT_VOTE_WEIGHT, U64_MAX])] at h3
    obtain rfl := Except.ok.inj h3
    refine ⟨?_, rfl, rfl⟩
    norm_num [DEFAULT_VOTE_WEIGHT]

/-- Claim C1 witness at concrete inputs. -/
theorem cast_vote_accumulates_same_target_witness :
    (sampleScopedRecord.weight_action_target = some 7 ∧
      sampleScopedRecord.weight_action = some VoterWeightAction.castVote ∧
      sampleScopedRecord.voter_weight + DEFAULT_VOTE_WEIGHT ≤ U64_MAX ∧
      cast_vote true 11 sampleScopedRecord 7 =
        Except.ok { sampleScopedRecord with
          voter_weight := sampleScopedRecord.voter_weight + DEFAULT_VOTE_WEIGHT
          voter_weight_expiry := some 11
          weight_action := some VoterWeightAction.castVote
          weight_action_target := some 7 }) ∧
    (cast_vote true 1 sampleUnscopedRecord 7 = Except.ok tripleStep1 ∧
      cast_vote true 2 tripleStep1 7 = Except.ok tripleStep2 ∧
      cast_vote true 3 tripleStep2 7 = Except.ok tripleStep3 ∧
      tripleStep3.voter_weight = 3 * DEFAULT_VOTE_WEIGHT ∧
      tripleStep3.weight_action = some VoterWeightAction.castVote ∧
      tripleStep3.weight_action_target = some 7) :=
  ⟨⟨rfl, rfl, by decide,
      cast_vote_accumulates_same_target.1 11 sampleScopedRecord 7 rfl rfl
        (by decide)⟩,
    rfl, rfl, rfl,
    (cast_vote_accumulates_same_target.2 1 2 3 sampleUnscopedRecord 7 rfl rfl
        rfl tripleStep1 tripleStep2 tripleStep3 rfl rfl rfl).1,
    (cast_vote_accumulates_same_target.2 1 2 3 sampleUnscopedRecord 7 rfl rfl
        rfl tripleStep1 tripleStep2 tripleStep3 rfl rfl rfl).2.1,
    (cast_vote_accumulates_same_target.2 1 2 3 sampleUnscopedRecord 7 rfl rfl
        rfl tripleStep1 tripleStep2 tripleStep3 rfl rfl rfl).2.2⟩

/-- Claim C2: a `cast_vote` call on a record that is not scoped to both
the cast-vote action and the same target proposal resets the weight to
exactly the per-call weight, discarding the stored weight. -/
theorem cast_vote_resets_on_other_scope (slot : Nat) (r : VoterWeightRecord)
    (P : Pubkey)
    (h : ¬(r.weight_action_target = some P ∧
        r.weight_action = some VoterWeightAction.castVote)) :
    cast_vote true slot r P =
      Except.ok { r with
        voter_weight := DEFAULT_VOTE_WEIGHT
        voter_weight_expiry := some slot
        weight_action := some VoterWeightAction.castVote
        weight_action_target := some P } :=
  cast_vote_true_reset slot r P h

/-- Claim C2 witness: a record accumulated against proposal 7 is reset
by a `cast_vote` against proposal 9. -/
theorem cast_vote_resets_on_other_scope_witness :
    ¬(sampleScopedRecord.weight_action_target = some 9 ∧
        sampleScopedRecord.weight_action = some VoterWeightAction.castVote) ∧
    cast_vote true 11 sampleScopedRecord 9 =
      Except.ok { sampleScopedRecord with
        voter_weight := DEFAULT_VOTE_WEIGHT
        voter_weight_expiry := some 11
        weight_action := some VoterWeightAction.castVote
        weight_action_target := some 9 } :=
  ⟨by decide, cast_vote_resets_on_other_scope 11 sampleScopedRecord 9 (by decide)⟩

/-- Claim C3: on the accumulate branch, a sum exceeding the u64 range
makes `cast_vote` abort fatally (the `unwrap` panic); the transaction
rolls back, so the record keeps its pre-call value. -/
theorem cast_vote_overflow_is_fatal (slot : Nat) (r : VoterWeightRecord)
    (P : Pubkey)
    (ht : r.weight_action_target = some P)
    (ha : r.weight_action = some VoterWeightAction.castVote)
    (ho : U64_MAX < r.voter_weight + DEFAULT_VOTE_WEIGHT) :
    cast_vote true slot r P = Except.error TxFailure.panicked := by
  unfold cast_vote
  rw [if_pos (And.intro ht ha), u64_checked_add_eq_none _ _ ho]
  rfl

/-- Claim C3 witness: a record at the u64 maximum overflows. -/
theorem cast_vote_overflow_is_fatal_witness :
    sampleMaxedRecord.weight_action_target = some 7 ∧
    sampleMaxedRecord.weight_action = some VoterWeightAction.castVote ∧
    U64_MAX < sampleMaxedRecord.voter_weight + DEFAULT_VOTE_WEIGHT ∧
    cast_vote true 11 sampleMaxedRecord 7 = Except.error TxFailure.panicked :=
  ⟨rfl, rfl, by decide,
    cast_vote_overflow_is_fatal 11 sampleMaxedRecord 7 rfl rfl (by decide)⟩

/-- Claim C4: the general update path rejects a cast-vote action with the
dedicated `CastVoteIsNotAllowed` error; since the transaction aborts, the
record is left unchanged, and cast-vote weight can only be produced by
the `cast_vote` accumulation path. -/
theorem update_voter_weight_record_rejects_cast_vote (slot : Nat)
    (r : VoterWeightRecord) (target : Option Pubkey) (w : Nat) :
    update_voter_weight_record true slot r VoterWeightAction.castVote target w =
      Except.error (TxFailure.err GatewayError.castVoteIsNotAllowed) := by
  unfold update_voter_weight_record
  rw [if_pos rfl]
  rfl

/-- Claim C6: every successful `cast_vote` call, on either branch, stamps
expiry with the execution slot, action with cast-vote and target with the
proposal. -/
theorem cast_vote_stamps_expiry_action_target (g : Bool) (slot : Nat)
    (r : VoterWeightRecord) (P : Pubkey) (r' : VoterWeightRecord)
    (h : cast_vote g slot r P = Except.ok r') :
    r'.voter_weight_expiry = some slot ∧
      r'.weight_action = some VoterWeightAction.castVote ∧
      r'.weight_action_target = some P :=
  (cast_vote_ok_inv g slot r P r' h).1

/-- Claim C6 witness at a concrete successful call. -/
theorem cast_vote_stamps_expiry_action_target_witness :
    cast_vote true 11 sampleUnscopedRecord 7 = Except.ok sampleStampedRecord ∧
    (sampleStampedRecord.voter_weight_expiry = some 11 ∧
      sampleStampedRecord.weight_action = some VoterWeightAction.castVote ∧
      sampleStampedRecord.weight_action_target = some 7) :=
  ⟨rfl,
    cast_vote_stamps_expiry_action_target true 11 sampleUnscopedRecord 7
      sampleStampedRecord rfl⟩

/-- Claim C7: when the gateway token fails verification, `cast_vote`
fails with `InvalidGatewayToken` before touching the record; the
transaction aborts with no mutation. -/
theorem cast_vote_rejects_invalid_gateway_token (slot : Nat)
    (r : VoterWeightRecord) (P : Pubkey) :
    cast_vote false slot r P =
      Except.error (TxFailure.err GatewayError.invalidGatewayToken) := rfl

/-- Claim C8 counterexample: the default-constructed record has weight
zero but is not unscoped — its action and target are populated. -/
theorem voter_weight_record_default_not_unscoped :
    ¬(VoterWeightRecord.default.voter_weight = 0 ∧
      VoterWeightRecord.default.weight_action = none ∧
      VoterWeightRecord.default.weight_action_target = none) := by
  decide

/-- Claim C8 (amended): the default-constructed record has weight zero,
expiry `Some 0`, action `Some CastVote` and target `Some Pubkey::default`
(the `Some` values make the serialized form maximal for space sizing). -/
theorem voter_weight_record_default_fields :
    VoterWeightRecord.default.voter_weight = 0 ∧
    VoterWeightRecord.default.voter_weight_expiry = some 0 ∧
    VoterWeightRecord.default.weight_action = some VoterWeightAction.castVote ∧
    VoterWeightRecord.default.weight_action_target = some 0 :=
  ⟨rfl, rfl, rfl, rfl⟩

/-- Claim C9: the external-to-internal action mapping is total on the
five in-range discriminants and preserves the ordinal (so the `unwrap`
is unreachable there), while every out-of-range discriminant maps to
`none` and thus panics fatally in the source. -/
theorem external_action_mapping_spec :
    (∀ e : SplVoterWeightAction,
      (mapExternalAction e).map VoterWeightAction.discriminant =
        some e.toU32) ∧
    (∀ n : Nat, VoterWeightAction.fromPrimitive (n + 5) = none) := by
  constructor
  · intro e
    cases e <;> rfl
  · intro n
    rfl

/-- Claim C10: the fixed per-call weight constant is exactly 1,000,000,
and every successful `cast_vote` either adds it to the stored weight or
resets the stored weight to it. -/
theorem default_vote_weight_spec :
    DEFAULT_VOTE_WEIGHT = 1000000 ∧
    ∀ (g : Bool) (slot : Nat) (r : VoterWeightRecord) (P : Pubkey)
      (r' : VoterWeightRecord),
      cast_vote g slot r P = Except.ok r' →
      (r'.voter_weight = r.voter_weight + 1000000 ∨
        r'.voter_weight = 1000000) := by
  refine ⟨rfl, ?_⟩
  intro g slot r P r' h
  have h2 := (cast_vote_ok_inv g slot r P r' h).2
  simpa [DEFAULT_VOTE_WEIGHT] using h2

/-- Claim C10 witness at a concrete successful call. -/
theorem default_vote_weight_spec_witness :
    cast_vote true 11 sampleUnscopedRecord 7 = Except.ok sampleStampedRecord ∧
    (sampleStampedRecord.voter_weight =
        sampleUnscopedRecord.voter_weight + 1000000 ∨
      sampleStampedRecord.voter_weight = 1000000) :=
  ⟨rfl,
    default_vote_weight_spec.2 true 11 sampleUnscopedRecord 7
      sampleStampedRecord rfl⟩

/-- Claim C5 evidence: at the failing input (base weight 1,000,000 with
the pure-square-root coefficient set), the value computed by the final
expression of `convert_vote` is exactly `some 1000` — the source then
discards this value instead of returning it. -/
theorem convert_vote_value_pure_sqrt_million :
    convert_vote_value 1000000 pureSqrtCoefficients = some 1000 := by
  have hs : Real.sqrt ((1000000 : Nat) : ℝ) = 1000 := by
    rw [show ((1000000 : Nat) : ℝ) = (1000 : ℝ) ^ 2 by norm_num]
    exact Real.sqrt_sq (by norm_num)
  have hterm : quadratic_full_term 1000000 pureSqrtCoefficients = 1000 := by
    simp only [quadratic_full_term, pureSqrtCoefficients]
    rw [hs]
    norm_num
  unfold convert_vote_value
  rw [hterm]
  unfold float_to_u64
  rw [if_pos (by constructor <;> norm_num)]
  norm_num
